import Mathlib

/-!
Shallow embedding of the MicroMart e-commerce backend (src/server.py).

Modelling conventions:
* Python floats (prices, totals) are modelled as exact rationals `ℚ`;
  every arithmetic the claims mention is plain sum-of-products, so the
  field structure of `ℚ` matches the source computations.
* Python ints (quantities, stock) are `Int`.
* MongoDB collections are lists of documents; `find_one` returns the
  first matching document, `replace_one` replaces the first match
  (optionally upserting), `delete_one` deletes the first match, and
  `update_one` with a `$set` updates the first match.  These are
  modelled by the explicit recursions below.
* uuid4-generated identifiers and `datetime.now` timestamps are
  nondeterministic inputs; they are passed to the operations as explicit
  parameters.  `created_at` fields that no operation ever reads are
  omitted; the cart's `updated_at` is kept because remove-from-cart
  rewrites it even on a no-op removal.
* A raised `HTTPException(status_code, detail)` is an `Except.error`
  carrying the status code and detail string; in every handler the
  exception is raised before any database write, so an error leaves the
  database unchanged.
-/

deriving instance DecidableEq for Except

namespace MicroMart

/-- Product document (`class Product` in src/server.py). -/
structure Product where
  id : String
  name : String
  description : String
  price : ℚ
  image_url : String
  category : String
  stock : Int
deriving DecidableEq

/-- Cart line item (`class CartItem`). -/
structure CartItem where
  product_id : String
  quantity : Int
  price : ℚ
deriving DecidableEq

/-- Cart document (`class Cart`); the uuid `id` field is never read by
any handler and is omitted. -/
structure Cart where
  user_id : String
  items : List CartItem
  total : ℚ
  updated_at : Nat
deriving DecidableEq

/-- Order line item (`class OrderItem`). -/
structure OrderItem where
  product_id : String
  product_name : String
  quantity : Int
  price : ℚ
deriving DecidableEq

/-- Order document (`class Order`). -/
structure Order where
  id : String
  user_id : String
  items : List OrderItem
  total : ℚ
  status : String
  shipping_address : String
deriving DecidableEq

/-- Payment document (`class Payment`). -/
structure Payment where
  id : String
  order_id : String
  amount : ℚ
  status : String
  payment_method : String
deriving DecidableEq

/-- The request body of POST /cart/add (`class AddToCartRequest`).
Note that `quantity : int` carries no pydantic constraint in the
source: any integer is accepted by validation. -/
structure AddToCartRequest where
  product_id : String
  quantity : Int
deriving DecidableEq

/-- `HTTPException(status_code=..., detail=...)`. -/
structure HTTPError where
  status : Nat
  detail : String
deriving DecidableEq

/-- The MongoDB database: the four collections the handlers touch. -/
structure DB where
  products : List Product
  carts : List Cart
  orders : List Order
  payments : List Payment
deriving DecidableEq

/-- `db.products.find_one({"id": pid})`: first product with the id. -/
def findProduct (pid : String) : List Product → Option Product
  | [] => none
  | p :: rest => if p.id = pid then some p else findProduct pid rest

/-- `db.carts.find_one({"user_id": uid})`: first cart of the user. -/
def findCart (uid : String) : List Cart → Option Cart
  | [] => none
  | c :: rest => if c.user_id = uid then some c else findCart uid rest

/-- `db.orders.find_one({"id": oid, "user_id": uid})`. -/
def findOrder (uid oid : String) : List Order → Option Order
  | [] => none
  | o :: rest => if o.id = oid ∧ o.user_id = uid then some o else findOrder uid oid rest

/-- The `for cart_item in cart.items: if cart_item.product_id == ...`
loop of add_to_cart: first line item with the given product id. -/
def findItem (pid : String) : List CartItem → Option CartItem
  | [] => none
  | it :: rest => if it.product_id = pid then some it else findItem pid rest

/-- `existing_item.quantity += item.quantity`: bump the quantity of the
first line item matching the product id, leave the rest alone. -/
def addQtyFirst (pid : String) (q : Int) : List CartItem → List CartItem
  | [] => []
  | it :: rest =>
      if it.product_id = pid then { it with quantity := it.quantity + q } :: rest
      else it :: addQtyFirst pid q rest

/-- `[item for item in cart.items if item.product_id != product_id]`. -/
def removeItemsWith (pid : String) : List CartItem → List CartItem
  | [] => []
  | it :: rest =>
      if it.product_id = pid then removeItemsWith pid rest
      else it :: removeItemsWith pid rest

/-- `db.carts.replace_one({"user_id": uid}, cart, upsert=True)`:
replace the first cart of the user, insert at the end if absent. -/
def replaceCartUpsert (uid : String) (c : Cart) : List Cart → List Cart
  | [] => [c]
  | x :: rest => if x.user_id = uid then c :: rest else x :: replaceCartUpsert uid c rest

/-- `db.carts.replace_one({"user_id": uid}, cart)` (no upsert). -/
def replaceCartFirst (uid : String) (c : Cart) : List Cart → List Cart
  | [] => []
  | x :: rest => if x.user_id = uid then c :: rest else x :: replaceCartFirst uid c rest

/-- `db.carts.delete_one({"user_id": uid})`: delete the first match. -/
def deleteCartFirst (uid : String) : List Cart → List Cart
  | [] => []
  | x :: rest => if x.user_id = uid then rest else x :: deleteCartFirst uid rest

/-- `db.orders.update_one({"id": oid}, {"$set": {"status": st}})`:
set the status of the first order with the id (no user filter). -/
def setStatusFirst (oid st : String) : List Order → List Order
  | [] => []
  | o :: rest => if o.id = oid then { o with status := st } :: rest
                 else o :: setStatusFirst oid st rest

/-- `sum(item.price * item.quantity for item in cart.items)`. -/
def cartTotal (items : List CartItem) : ℚ :=
  (items.map (fun it => it.price * (it.quantity : ℚ))).sum

/-- GET /cart (`get_cart`): return the user's cart, creating and
inserting an empty one (total 0) if none exists. -/
def get_cart (db : DB) (uid : String) (now : Nat) : DB × Cart :=
  match findCart uid db.carts with
  | some c => (db, c)
  | none =>
      let c : Cart := { user_id := uid, items := [], total := 0, updated_at := now }
      ({ db with carts := db.carts ++ [c] }, c)

/-- POST /cart/add (`add_to_cart`). -/
def add_to_cart (db : DB) (uid : String) (item : AddToCartRequest) (now : Nat) :
    Except HTTPError (DB × String) :=
  match findProduct item.product_id db.products with
  | none => .error { status := 404, detail := "Product not found" }
  | some product =>
      let cart : Cart :=
        match findCart uid db.carts with
        | none => { user_id := uid, items := [], total := 0, updated_at := now }
        | some c => c
      let items : List CartItem :=
        match findItem item.product_id cart.items with
        | some _ => addQtyFirst item.product_id item.quantity cart.items
        | none => cart.items ++
            [{ product_id := item.product_id, quantity := item.quantity,
               price := product.price }]
      let cart' : Cart :=
        { cart with items := items, total := cartTotal items, updated_at := now }
      .ok ({ db with carts := replaceCartUpsert uid cart' db.carts },
           "Item added to cart")

/-- DELETE /cart/remove/{product_id} (`remove_from_cart`). -/
def remove_from_cart (db : DB) (uid pid : String) (now : Nat) :
    Except HTTPError (DB × String) :=
  match findCart uid db.carts with
  | none => .error { status := 404, detail := "Cart not found" }
  | some cart =>
      let items := removeItemsWith pid cart.items
      let cart' : Cart :=
        { cart with items := items, total := cartTotal items, updated_at := now }
      .ok ({ db with carts := replaceCartFirst uid cart' db.carts },
           "Item removed from cart")

/-- The order-item loop of `create_order`: resolve each cart item's
product; items whose product is gone are dropped, the rest are copied
with the cart's quantity and price snapshot plus the product's name. -/
def mkOrderItems (products : List Product) : List CartItem → List OrderItem
  | [] => []
  | it :: rest =>
      match findProduct it.product_id products with
      | some p =>
          { product_id := it.product_id, product_name := p.name,
            quantity := it.quantity, price := it.price } :: mkOrderItems products rest
      | none => mkOrderItems products rest

/-- POST /orders (`create_order`); `oid` stands for the uuid the
constructor would generate. -/
def create_order (db : DB) (uid addr oid : String) :
    Except HTTPError (DB × Order) :=
  match findCart uid db.carts with
  | none => .error { status := 400, detail := "Cart is empty" }
  | some cart =>
      if cart.items = [] then .error { status := 400, detail := "Cart is empty" }
      else
        let order : Order :=
          { id := oid, user_id := uid, items := mkOrderItems db.products cart.items,
            total := cart.total, status := "pending", shipping_address := addr }
        .ok ({ db with orders := db.orders ++ [order],
                       carts := deleteCartFirst uid db.carts }, order)

/-- POST /payments/{order_id} (`process_payment`); `payid` stands for
the generated payment uuid.  Note: no check of the order's current
status — the payment and the status write happen unconditionally. -/
def process_payment (db : DB) (uid oid payid : String) :
    Except HTTPError (DB × Payment) :=
  match findOrder uid oid db.orders with
  | none => .error { status := 404, detail := "Order not found" }
  | some order =>
      let payment : Payment :=
        { id := payid, order_id := oid, amount := order.total,
          status := "completed", payment_method := "mock" }
      .ok ({ db with payments := db.payments ++ [payment],
                     orders := setStatusFirst oid "paid" db.orders }, payment)

/-- POST /products (`create_product`); `p` carries the generated id. -/
def create_product (db : DB) (p : Product) : DB × Product :=
  ({ db with products := db.products ++ [p] }, p)

/-- The eight sample products of POST /admin/init-products, ids
supplied by `freshId`. -/
def sampleProducts (freshId : Nat → String) : List Product :=
  [{ id := freshId 0, name := "Premium Dental Care Set",
     description := "Complete oral care solution with professional-grade toothpaste and accessories",
     price := 29.99,
     image_url := "https://images.unsplash.com/photo-1691096673040-1632eb4b0a9d?crop=entropy&cs=srgb&fm=jpg&ixid=M3w3NTY2NzB8MHwxfHNlYXJjaHwxfHxlY29tbWVyY2UlMjBwcm9kdWN0c3xlbnwwfHx8fDE3NTc4OTg1Mjd8MA&ixlib=rb-4.1.0&q=85",
     category := "Health & Beauty", stock := 50 },
   { id := freshId 1, name := "Professional Toothpaste Duo",
     description := "Twin pack of premium fluoride toothpaste for complete dental protection",
     price := 19.99,
     image_url := "https://images.unsplash.com/photo-1691096673789-ae6a7492fd97?crop=entropy&cs=srgb&fm=jpg&ixid=M3w3NTY2NzB8MHwxfHNlYXJjaHwyfHxlY29tbWVyY2UlMjBwcm9kdWN0c3xlbnwwfHx8fDE3NTc4OTg1Mjd8MA&ixlib=rb-4.1.0&q=85",
     category := "Health & Beauty", stock := 75 },
   { id := freshId 2, name := "Lifestyle Essentials Bundle",
     description := "Curated collection of daily essentials and wellness products",
     price := 89.99,
     image_url := "https://images.unsplash.com/photo-1691096674326-74cfe19c04cc?crop=entropy&cs=srgb&fm=jpg&ixid=M3w3NTY2NzB8MHwxfHNlYXJjaHwzfHxlY29tbWVyY2UlMjBwcm9kdWN0c3xlbnwwfHx8fDE3NTc4OTg1Mjd8MA&ixlib=rb-4.1.0&q=85",
     category := "Lifestyle", stock := 30 },
   { id := freshId 3, name := "Complete Oral Health Kit",
     description := "Professional dental care system with advanced whitening formula",
     price := 45.99,
     image_url := "https://images.unsplash.com/photo-1691096674749-29069acd529c?crop=entropy&cs=srgb&fm=jpg&ixid=M3w3NTY2NzB8MHwxfHNlYXJjaHw0fHxlY29tbWVyY2UlMjBwcm9kdWN0c3xlbnwwfHx8fDE3NTc4OTg1Mjd8MA&ixlib=rb-4.1.0&q=85",
     category := "Health & Beauty", stock := 40 },
   { id := freshId 4, name := "Glossier Beauty Collection",
     description := "Premium cosmetics and skincare products for modern beauty routines",
     price := 125.00,
     image_url := "https://images.unsplash.com/photo-1629198688000-71f23e745b6e?crop=entropy&cs=srgb&fm=jpg&ixid=M3w3NDQ2NDF8MHwxfHNlYXJjaHwxfHxwcm9kdWN0c3xlbnwwfHx8fDE3NTc4OTg1MzJ8MA&ixlib=rb-4.1.0&q=85",
     category := "Beauty", stock := 25 },
   { id := freshId 5, name := "Nike Air Performance Sneaker",
     description := "High-performance athletic footwear with advanced cushioning technology",
     price := 159.99,
     image_url := "https://images.unsplash.com/photo-1542291026-7eec264c27ff?crop=entropy&cs=srgb&fm=jpg&ixid=M3w3NDQ2NDF8MHwxfHNlYXJjaHwyfHxwcm9kdWN0c3xlbnwwfHx8fDE3NTc4OTg1MzJ8MA&ixlib=rb-4.1.0&q=85",
     category := "Fashion", stock := 60 },
   { id := freshId 6, name := "Curology Skincare System",
     description := "Personalized skincare solution with custom formulated treatments",
     price := 79.99,
     image_url := "https://images.unsplash.com/photo-1571781926291-c477ebfd024b?crop=entropy&cs=srgb&fm=jpg&ixid=M3w3NDQ2NDF8MHwxfHNlYXJjaHwzfHxwcm9kdWN0c3xlbnwwfHx8fDE3NTc4OTg1MzJ8MA&ixlib=rb-4.1.0&q=85",
     category := "Skincare", stock := 35 },
   { id := freshId 7, name := "Minimalist Bottle Collection",
     description := "Elegant glass bottles perfect for storage and home organization",
     price := 39.99,
     image_url := "https://images.unsplash.com/photo-1611930022073-b7a4ba5fcccd?crop=entropy&cs=srgb&fm=jpg&ixid=M3w3NDQ2NDF8MHwxfHNlYXJjaHw0fHxwcm9kdWN0c3xlbnwwfHx8fDE3NTc4OTg1MzJ8MA&ixlib=rb-4.1.0&q=85",
     category := "Home & Living", stock := 20 }]

/-- POST /admin/init-products (`initialize_sample_products` in the
source): a no-op with a distinct message when the catalog already has
any product, otherwise inserts the eight sample products. -/
def init_products (db : DB) (freshId : Nat → String) : DB × String :=
  if 0 < db.products.length then (db, "Products already initialized")
  else
    let ps := sampleProducts freshId
    ({ db with products := db.products ++ ps },
     "Initialized " ++ toString ps.length ++ " sample products")

/-- One client request against the store; uuid/timestamp inputs are
carried as data. -/
inductive Op where
  | getCart (uid : String) (now : Nat)
  | addToCart (uid pid : String) (qty : Int) (now : Nat)
  | removeFromCart (uid pid : String) (now : Nat)
  | createOrder (uid addr oid : String)
  | processPayment (uid oid payid : String)
  | createProduct (p : Product)
  | initProducts (freshId : Nat → String)

/-- Effect of one request on the database; a raised HTTPException
leaves the database as it was (every handler raises before writing). -/
def applyOp (db : DB) : Op → DB
  | .getCart uid now => (get_cart db uid now).1
  | .addToCart uid pid qty now =>
      match add_to_cart db uid { product_id := pid, quantity := qty } now with
      | .ok (db', _) => db'
      | .error _ => db
  | .removeFromCart uid pid now =>
      match remove_from_cart db uid pid now with
      | .ok (db', _) => db'
      | .error _ => db
  | .createOrder uid addr oid =>
      match create_order db uid addr oid with
      | .ok (db', _) => db'
      | .error _ => db
  | .processPayment uid oid payid =>
      match process_payment db uid oid payid with
      | .ok (db', _) => db'
      | .error _ => db
  | .createProduct p => (create_product db p).1
  | .initProducts freshId => (init_products db freshId).1

/-- The empty store. -/
def initDB : DB := { products := [], carts := [], orders := [], payments := [] }

/-- Run a sequence of requests. -/
def runOps (db : DB) (ops : List Op) : DB := ops.foldl applyOp db

/-- A well-formed cart: the stored total is the recomputed sum of its
items and no product id occurs in two line items. -/
def cartOK (c : Cart) : Prop :=
  c.total = cartTotal c.items ∧ (c.items.map CartItem.product_id).Nodup

/-- Global invariant maintained by every request: all carts are
well-formed, each user owns at most one cart, and every order's status
is pending or paid. -/
def Inv (db : DB) : Prop :=
  (∀ c ∈ db.carts, cartOK c) ∧
  (db.carts.map Cart.user_id).Nodup ∧
  (∀ o ∈ db.orders, o.status = "pending" ∨ o.status = "paid")

/-- How one request may relate an existing order to its successor at
the same position: the identity is kept and the status is either
unchanged or flips from "pending" to "paid". -/
def statusStep (o o' : Order) : Prop :=
  o'.id = o.id ∧ (o'.status = o.status ∨ (o.status = "pending" ∧ o'.status = "paid"))

/-! ### Lemmas about the store primitives -/

theorem findCart_none_iff {uid : String} {l : List Cart} :
    findCart uid l = none ↔ ∀ c ∈ l, c.user_id ≠ uid := by
  induction l with
  | nil => simp [findCart]
  | cons x rest ih =>
      by_cases hx : x.user_id = uid
      · simp [findCart, hx]
      · simp [findCart, hx, ih]

theorem findCart_some {uid : String} {l : List Cart} {c : Cart}
    (h : findCart uid l = some c) : c ∈ l ∧ c.user_id = uid := by
  induction l with
  | nil => simp [findCart] at h
  | cons x rest ih =>
      by_cases hx : x.user_id = uid
      · rw [findCart, if_pos hx] at h
        cases h
        exact ⟨List.mem_cons_self _ _, hx⟩
      · rw [findCart, if_neg hx] at h
        rcases ih h with ⟨h1, h2⟩
        exact ⟨List.mem_cons_of_mem _ h1, h2⟩

theorem findItem_none_iff {pid : String} {l : List CartItem} :
    findItem pid l = none ↔ ∀ it ∈ l, it.product_id ≠ pid := by
  induction l with
  | nil => simp [findItem]
  | cons x rest ih =>
      by_cases hx : x.product_id = pid
      · simp [findItem, hx]
      · simp [findItem, hx, ih]

theorem findItem_some {pid : String} {l : List CartItem} {it : CartItem}
    (h : findItem pid l = some it) : it ∈ l ∧ it.product_id = pid := by
  induction l with
  | nil => simp [findItem] at h
  | cons x rest ih =>
      by_cases hx : x.product_id = pid
      · rw [findItem, if_pos hx] at h
        cases h
        exact ⟨List.mem_cons_self _ _, hx⟩
      · rw [findItem, if_neg hx] at h
        rcases ih h with ⟨h1, h2⟩
        exact ⟨List.mem_cons_of_mem _ h1, h2⟩

theorem findItem_isSome_of_mem {pid : String} {l : List CartItem} {it : CartItem}
    (hmem : it ∈ l) (hpid : it.product_id = pid) : (findItem pid l).isSome := by
  induction l with
  | nil => cases hmem
  | cons x rest ih =>
      by_cases hx : x.product_id = pid
      · rw [findItem, if_pos hx]; rfl
      · rw [findItem, if_neg hx]
        rcases List.mem_cons.mp hmem with rfl | hmem'
        · exact absurd hpid hx
        · exact ih hmem'

theorem mem_replaceCartUpsert {uid : String} {c x : Cart} {l : List Cart}
    (h : x ∈ replaceCartUpsert uid c l) : x = c ∨ x ∈ l := by
  induction l with
  | nil =>
      rw [replaceCartUpsert] at h
      exact Or.inl (List.mem_singleton.mp h)
  | cons y rest ih =>
      by_cases hy : y.user_id = uid
      · rw [replaceCartUpsert, if_pos hy] at h
        rcases List.mem_cons.mp h with rfl | h'
        · exact Or.inl rfl
        · exact Or.inr (List.mem_cons_of_mem _ h')
      · rw [replaceCartUpsert, if_neg hy] at h
        rcases List.mem_cons.mp h with rfl | h'
        · exact Or.inr (List.mem_cons_self _ _)
        · rcases ih h' with h'' | h''
          · exact Or.inl h''
          · exact Or.inr (List.mem_cons_of_mem _ h'')

theorem mem_replaceCartFirst {uid : String} {c x : Cart} {l : List Cart}
    (h : x ∈ replaceCartFirst uid c l) : x = c ∨ x ∈ l := by
  induction l with
  | nil => simp [replaceCartFirst] at h
  | cons y rest ih =>
      by_cases hy : y.user_id = uid
      · rw [replaceCartFirst, if_pos hy] at h
        rcases List.mem_cons.mp h with rfl | h'
        · exact Or.inl rfl
        · exact Or.inr (List.mem_cons_of_mem _ h')
      · rw [replaceCartFirst, if_neg hy] at h
        rcases List.mem_cons.mp h with rfl | h'
        · exact Or.inr (List.mem_cons_self _ _)
        · rcases ih h' with h'' | h''
          · exact Or.inl h''
          · exact Or.inr (List.mem_cons_of_mem _ h'')

theorem mem_deleteCartFirst {uid : String} {x : Cart} {l : List Cart}
    (h : x ∈ deleteCartFirst uid l) : x ∈ l := by
  induction l with
  | nil => simp [deleteCartFirst] at h
  | cons y rest ih =>
      by_cases hy : y.user_id = uid
      · rw [deleteCartFirst, if_pos hy] at h
        exact List.mem_cons_of_mem _ h
      · rw [deleteCartFirst, if_neg hy] at h
        rcases List.mem_cons.mp h with rfl | h'
        · exact List.mem_cons_self _ _
        · exact List.mem_cons_of_mem _ (ih h')

theorem mem_setStatusFirst {oid st : String} {x : Order} {l : List Order}
    (h : x ∈ setStatusFirst oid st l) :
    x ∈ l ∨ ∃ o ∈ l, x = { o with status := st } := by
  induction l with
  | nil => simp [setStatusFirst] at h
  | cons y rest ih =>
      by_cases hy : y.id = oid
      · rw [setStatusFirst, if_pos hy] at h
        rcases List.mem_cons.mp h with rfl | h'
        · exact Or.inr ⟨y, List.mem_cons_self _ _, rfl⟩
        · exact Or.inl (List.mem_cons_of_mem _ h')
      · rw [setStatusFirst, if_neg hy] at h
        rcases List.mem_cons.mp h with rfl | h'
        · exact Or.inl (List.mem_cons_self _ _)
        · rcases ih h' with h'' | ⟨o, ho, rfl⟩
          · exact Or.inl (List.mem_cons_of_mem _ h'')
          · exact Or.inr ⟨o, List.mem_cons_of_mem _ ho, rfl⟩

theorem mem_map_userId_replaceCartUpsert {uid y : String} {c : Cart} {l : List Cart}
    (hc : c.user_id = uid)
    (h : y ∈ (replaceCartUpsert uid c l).map Cart.user_id) :
    y = uid ∨ y ∈ l.map Cart.user_id := by
  rcases List.mem_map.mp h with ⟨x, hx, rfl⟩
  rcases mem_replaceCartUpsert hx with rfl | hx'
  · exact Or.inl hc
  · exact Or.inr (List.mem_map_of_mem _ hx')

theorem nodup_userId_replaceCartUpsert {uid : String} {c : Cart} {l : List Cart}
    (hc : c.user_id = uid) (h : (l.map Cart.user_id).Nodup) :
    ((replaceCartUpsert uid c l).map Cart.user_id).Nodup := by
  induction l with
  | nil => simp [replaceCartUpsert]
  | cons x rest ih =>
      rw [List.map_cons, List.nodup_cons] at h
      by_cases hx : x.user_id = uid
      · rw [replaceCartUpsert, if_pos hx, List.map_cons, List.nodup_cons, hc, ← hx]
        exact h
      · rw [replaceCartUpsert, if_neg hx, List.map_cons, List.nodup_cons]
        refine ⟨fun hmem => ?_, ih h.2⟩
        rcases mem_map_userId_replaceCartUpsert hc hmem with h' | h'
        · exact hx h'
        · exact h.1 h'

theorem map_userId_replaceCartFirst {uid : String} {c : Cart} {l : List Cart}
    (hc : c.user_id = uid) :
    (replaceCartFirst uid c l).map Cart.user_id = l.map Cart.user_id := by
  induction l with
  | nil => rfl
  | cons y rest ih =>
      by_cases hy : y.user_id = uid
      · rw [replaceCartFirst, if_pos hy, List.map_cons, List.map_cons, hc, hy]
      · rw [replaceCartFirst, if_neg hy, List.map_cons, List.map_cons, ih]

theorem nodup_userId_deleteCartFirst {uid : String} {l : List Cart}
    (h : (l.map Cart.user_id).Nodup) :
    ((deleteCartFirst uid l).map Cart.user_id).Nodup := by
  induction l with
  | nil => simp [deleteCartFirst]
  | cons y rest ih =>
      rw [List.map_cons, List.nodup_cons] at h
      by_cases hy : y.user_id = uid
      · rw [deleteCartFirst, if_pos hy]
        exact h.2
      · rw [deleteCartFirst, if_neg hy, List.map_cons, List.nodup_cons]
        refine ⟨fun hmem => ?_, ih h.2⟩
        rcases List.mem_map.mp hmem with ⟨x, hx, hxeq⟩
        exact h.1 (hxeq ▸ List.mem_map_of_mem _ (mem_deleteCartFirst hx))

theorem findCart_deleteCartFirst_of_nodup {uid : String} {l : List Cart}
    (h : (l.map Cart.user_id).Nodup) :
    findCart uid (deleteCartFirst uid l) = none := by
  induction l with
  | nil => rfl
  | cons y rest ih =>
      rw [List.map_cons, List.nodup_cons] at h
      by_cases hy : y.user_id = uid
      · rw [deleteCartFirst, if_pos hy, findCart_none_iff]
        intro c hc hceq
        exact h.1 (hy ▸ hceq ▸ List.mem_map_of_mem Cart.user_id hc)
      · rw [deleteCartFirst, if_neg hy, findCart, if_neg hy]
        exact ih h.2

theorem findCart_replaceCartUpsert {uid : String} {c : Cart} {l : List Cart}
    (hc : c.user_id = uid) :
    findCart uid (replaceCartUpsert uid c l) = some c := by
  induction l with
  | nil => rw [replaceCartUpsert, findCart, if_pos hc]
  | cons y rest ih =>
      by_cases hy : y.user_id = uid
      · rw [replaceCartUpsert, if_pos hy, findCart, if_pos hc]
      · rw [replaceCartUpsert, if_neg hy, findCart, if_neg hy]
        exact ih

theorem findCart_replaceCartFirst {uid : String} {c c' : Cart} {l : List Cart}
    (hc : c'.user_id = uid) (h : findCart uid l = some c) :
    findCart uid (replaceCartFirst uid c' l) = some c' := by
  induction l with
  | nil => simp [findCart] at h
  | cons y rest ih =>
      by_cases hy : y.user_id = uid
      · rw [replaceCartFirst, if_pos hy, findCart, if_pos hc]
      · rw [findCart, if_neg hy] at h
        rw [replaceCartFirst, if_neg hy, findCart, if_neg hy]
        exact ih h

theorem map_productId_addQtyFirst (pid : String) (q : Int) (l : List CartItem) :
    (addQtyFirst pid q l).map CartItem.product_id = l.map CartItem.product_id := by
  induction l with
  | nil => rfl
  | cons it rest ih =>
      by_cases h : it.product_id = pid
      · rw [addQtyFirst, if_pos h, List.map_cons, List.map_cons]
      · rw [addQtyFirst, if_neg h, List.map_cons, List.map_cons, ih]

theorem mem_removeItemsWith {pid : String} {x : CartItem} {l : List CartItem}
    (h : x ∈ removeItemsWith pid l) : x ∈ l := by
  induction l with
  | nil => simp [removeItemsWith] at h
  | cons it rest ih =>
      by_cases hit : it.product_id = pid
      · rw [removeItemsWith, if_pos hit] at h
        exact List.mem_cons_of_mem _ (ih h)
      · rw [removeItemsWith, if_neg hit] at h
        rcases List.mem_cons.mp h with rfl | h'
        · exact List.mem_cons_self _ _
        · exact List.mem_cons_of_mem _ (ih h')

theorem nodup_productId_removeItemsWith {pid : String} {l : List CartItem}
    (h : (l.map CartItem.product_id).Nodup) :
    ((removeItemsWith pid l).map CartItem.product_id).Nodup := by
  induction l with
  | nil => simp [removeItemsWith]
  | cons it rest ih =>
      rw [List.map_cons, List.nodup_cons] at h
      by_cases hit : it.product_id = pid
      · rw [removeItemsWith, if_pos hit]
        exact ih h.2
      · rw [removeItemsWith, if_neg hit, List.map_cons, List.nodup_cons]
        refine ⟨fun hmem => ?_, ih h.2⟩
        rcases List.mem_map.mp hmem with ⟨x, hx, hxeq⟩
        exact h.1 (hxeq ▸ List.mem_map_of_mem _ (mem_removeItemsWith hx))

theorem removeItemsWith_of_absent {pid : String} {l : List CartItem}
    (h : ∀ it ∈ l, it.product_id ≠ pid) : removeItemsWith pid l = l := by
  induction l with
  | nil => rfl
  | cons it rest ih =>
      rw [removeItemsWith, if_neg (h it (List.mem_cons_self _ _)),
        ih (fun x hx => h x (List.mem_cons_of_mem _ hx))]

/-! ### The store invariant -/

theorem inv_initDB : Inv initDB := by
  refine ⟨?_, ?_, ?_⟩ <;> simp [initDB]

theorem inv_replaceCartUpsert {db : DB} {uid : String} {c : Cart}
    (h : Inv db) (huid : c.user_id = uid) (hok : cartOK c) :
    Inv { db with carts := replaceCartUpsert uid c db.carts } := by
  rcases h with ⟨hcarts, hnd, horders⟩
  refine ⟨?_, nodup_userId_replaceCartUpsert huid hnd, horders⟩
  intro x hx
  rcases mem_replaceCartUpsert hx with rfl | hx'
  · exact hok
  · exact hcarts x hx'

theorem inv_replaceCartFirst {db : DB} {uid : String} {c : Cart}
    (h : Inv db) (huid : c.user_id = uid) (hok : cartOK c) :
    Inv { db with carts := replaceCartFirst uid c db.carts } := by
  rcases h with ⟨hcarts, hnd, horders⟩
  refine ⟨?_, (map_userId_replaceCartFirst huid).symm ▸ hnd, horders⟩
  intro x hx
  rcases mem_replaceCartFirst hx with rfl | hx'
  · exact hok
  · exact hcarts x hx'

theorem inv_get_cart {db : DB} (h : Inv db) (uid : String) (now : Nat) :
    Inv (get_cart db uid now).1 := by
  rcases h with ⟨hcarts, hnd, horders⟩
  cases hfc : findCart uid db.carts with
  | some c =>
      simp only [get_cart, hfc]
      exact ⟨hcarts, hnd, horders⟩
  | none =>
      simp only [get_cart, hfc]
      refine ⟨?_, ?_, horders⟩
      · intro c hc
        rcases List.mem_append.mp hc with hc' | hc'
        · exact hcarts c hc'
        · rw [List.mem_singleton] at hc'
          subst hc'
          exact ⟨by simp [cartTotal], by simp⟩
      · rw [List.map_append]
        refine List.nodup_append.mpr ⟨hnd, List.nodup_singleton _, ?_⟩
        intro a ha hb
        rcases List.mem_map.mp ha with ⟨c, hc, rfl⟩
        rw [List.map_cons, List.map_nil, List.mem_singleton] at hb
        exact (findCart_none_iff.mp hfc c hc) hb

theorem inv_add_to_cart {db db' : DB} {uid : String} {req : AddToCartRequest}
    {now : Nat} {msg : String}
    (h : Inv db) (hok : add_to_cart db uid req now = .ok (db', msg)) : Inv db' := by
  cases hfp : findProduct req.product_id db.products with
  | none => simp [add_to_cart, hfp] at hok
  | some product =>
    cases hfc : findCart uid db.carts with
    | none =>
        simp only [add_to_cart, hfp, hfc, findItem, Except.ok.injEq, Prod.mk.injEq] at hok
        obtain ⟨hdb, -⟩ := hok
        subst hdb
        exact inv_replaceCartUpsert h rfl ⟨rfl, by simp⟩
    | some c =>
        have hc := findCart_some hfc
        cases hfi : findItem req.product_id c.items with
        | none =>
            simp only [add_to_cart, hfp, hfc, hfi, Except.ok.injEq, Prod.mk.injEq] at hok
            obtain ⟨hdb, -⟩ := hok
            subst hdb
            refine inv_replaceCartUpsert h hc.2 ⟨rfl, ?_⟩
            rw [List.map_append]
            refine List.nodup_append.mpr ⟨(h.1 c hc.1).2, List.nodup_singleton _, ?_⟩
            intro a ha hb
            rcases List.mem_map.mp ha with ⟨x, hx, rfl⟩
            rw [List.map_cons, List.map_nil, List.mem_singleton] at hb
            exact (findItem_none_iff.mp hfi x hx) hb
        | some it =>
            simp only [add_to_cart, hfp, hfc, hfi, Except.ok.injEq, Prod.mk.injEq] at hok
            obtain ⟨hdb, -⟩ := hok
            subst hdb
            refine inv_replaceCartUpsert h hc.2 ⟨rfl, ?_⟩
            rw [map_productId_addQtyFirst]
            exact (h.1 c hc.1).2

theorem inv_remove_from_cart {db db' : DB} {uid pid : String} {now : Nat} {msg : String}
    (h : Inv db) (hok : remove_from_cart db uid pid now = .ok (db', msg)) : Inv db' := by
  cases hfc : findCart uid db.carts with
  | none => simp [remove_from_cart, hfc] at hok
  | some cart =>
    simp only [remove_from_cart, hfc, Except.ok.injEq, Prod.mk.injEq] at hok
    obtain ⟨hdb, -⟩ := hok
    subst hdb
    have hc := findCart_some hfc
    exact inv_replaceCartFirst h hc.2
      ⟨rfl, nodup_productId_removeItemsWith (h.1 cart hc.1).2⟩

theorem inv_create_order {db db' : DB} {uid addr oid : String} {ord : Order}
    (h : Inv db) (hok : create_order db uid addr oid = .ok (db', ord)) : Inv db' := by
  cases hfc : findCart uid db.carts with
  | none => simp [create_order, hfc] at hok
  | some cart =>
    by_cases hemp : cart.items = []
    · simp [create_order, hfc, hemp] at hok
    · simp only [create_order, hfc, if_neg hemp, Except.ok.injEq, Prod.mk.injEq] at hok
      obtain ⟨hdb, -⟩ := hok
      subst hdb
      refine ⟨?_, nodup_userId_deleteCartFirst h.2.1, ?_⟩
      · intro x hx
        exact h.1 x (mem_deleteCartFirst hx)
      · intro o ho
        rcases List.mem_append.mp ho with ho' | ho'
        · exact h.2.2 o ho'
        · rw [List.mem_singleton] at ho'
          subst ho'
          exact Or.inl rfl

theorem inv_process_payment {db db' : DB} {uid oid payid : String} {pay : Payment}
    (h : Inv db) (hok : process_payment db uid oid payid = .ok (db', pay)) : Inv db' := by
  cases hfo : findOrder uid oid db.orders with
  | none => simp [process_payment, hfo] at hok
  | some order =>
    simp only [process_payment, hfo, Except.ok.injEq, Prod.mk.injEq] at hok
    obtain ⟨hdb, -⟩ := hok
    subst hdb
    refine ⟨h.1, h.2.1, ?_⟩
    intro o ho
    rcases mem_setStatusFirst ho with ho' | ⟨o', _, rfl⟩
    · exact h.2.2 o ho'
    · exact Or.inr rfl

theorem inv_applyOp {db : DB} (h : Inv db) (op : Op) : Inv (applyOp db op) := by
  cases op with
  | getCart uid now => exact inv_get_cart h uid now
  | addToCart uid pid qty now =>
      cases hres : add_to_cart db uid { product_id := pid, quantity := qty } now with
      | error e => simp only [applyOp, hres]; exact h
      | ok r =>
          obtain ⟨db', msg⟩ := r
          simp only [applyOp, hres]
          exact inv_add_to_cart h hres
  | removeFromCart uid pid now =>
      cases hres : remove_from_cart db uid pid now with
      | error e => simp only [applyOp, hres]; exact h
      | ok r =>
          obtain ⟨db', msg⟩ := r
          simp only [applyOp, hres]
          exact inv_remove_from_cart h hres
  | createOrder uid addr oid =>
      cases hres : create_order db uid addr oid with
      | error e => simp only [applyOp, hres]; exact h
      | ok r =>
          obtain ⟨db', ord⟩ := r
          simp only [applyOp, hres]
          exact inv_create_order h hres
  | processPayment uid oid payid =>
      cases hres : process_payment db uid oid payid with
      | error e => simp only [applyOp, hres]; exact h
      | ok r =>
          obtain ⟨db', pay⟩ := r
          simp only [applyOp, hres]
          exact inv_process_payment h hres
  | createProduct p => exact h
  | initProducts freshId =>
      show Inv (init_products db freshId).1
      unfold init_products
      split
      · exact h
      · exact h

theorem inv_runOps (ops : List Op) : ∀ {db : DB}, Inv db → Inv (runOps db ops) := by
  induction ops with
  | nil => intro db h; exact h
  | cons op rest ih => intro db h; exact ih (inv_applyOp h op)

theorem inv_reachable (ops : List Op) : Inv (runOps initDB ops) :=
  inv_runOps ops inv_initDB

/-! ### Shape of successful operations -/

theorem add_to_cart_ok_shape {db db' : DB} {uid : String} {req : AddToCartRequest}
    {now : Nat} {msg : String}
    (hok : add_to_cart db uid req now = .ok (db', msg)) :
    ∃ c', c'.user_id = uid ∧
      db' = { db with carts := replaceCartUpsert uid c' db.carts } := by
  cases hfp : findProduct req.product_id db.products with
  | none => simp [add_to_cart, hfp] at hok
  | some product =>
      cases hfc : findCart uid db.carts with
      | none =>
          simp only [add_to_cart, hfp, hfc, findItem, Except.ok.injEq, Prod.mk.injEq] at hok
          exact ⟨_, rfl, hok.1.symm⟩
      | some c =>
          cases hfi : findItem req.product_id c.items with
          | none =>
              simp only [add_to_cart, hfp, hfc, hfi, Except.ok.injEq, Prod.mk.injEq] at hok
              refine ⟨_, ?_, hok.1.symm⟩
              exact (findCart_some hfc).2
          | some it =>
              simp only [add_to_cart, hfp, hfc, hfi, Except.ok.injEq, Prod.mk.injEq] at hok
              refine ⟨_, ?_, hok.1.symm⟩
              exact (findCart_some hfc).2

theorem remove_from_cart_ok_shape {db db' : DB} {uid pid : String}
    {now : Nat} {msg : String}
    (hok : remove_from_cart db uid pid now = .ok (db', msg)) :
    ∃ c', c'.user_id = uid ∧
      db' = { db with carts := replaceCartFirst uid c' db.carts } := by
  cases hfc : findCart uid db.carts with
  | none => simp [remove_from_cart, hfc] at hok
  | some cart =>
      simp only [remove_from_cart, hfc, Except.ok.injEq, Prod.mk.injEq] at hok
      refine ⟨_, ?_, hok.1.symm⟩
      exact (findCart_some hfc).2

theorem create_order_ok_shape {db db' : DB} {uid addr oid : String} {ord : Order}
    (hok : create_order db uid addr oid = .ok (db', ord)) :
    ∃ cart, findCart uid db.carts = some cart ∧ cart.items ≠ [] ∧
      ord = { id := oid, user_id := uid, items := mkOrderItems db.products cart.items,
              total := cart.total, status := "pending", shipping_address := addr } ∧
      db' = { db with orders := db.orders ++ [ord],
                      carts := deleteCartFirst uid db.carts } := by
  cases hfc : findCart uid db.carts with
  | none => simp [create_order, hfc] at hok
  | some cart =>
      by_cases hemp : cart.items = []
      · simp [create_order, hfc, hemp] at hok
      · simp only [create_order, hfc, if_neg hemp, Except.ok.injEq, Prod.mk.injEq] at hok
        obtain ⟨hdb, hord⟩ := hok
        exact ⟨cart, rfl, hemp, hord.symm, by rw [← hdb, ← hord]⟩

theorem process_payment_ok_shape {db db' : DB} {uid oid payid : String} {pay : Payment}
    (hok : process_payment db uid oid payid = .ok (db', pay)) :
    ∃ ord, findOrder uid oid db.orders = some ord ∧
      pay = { id := payid, order_id := oid, amount := ord.total,
              status := "completed", payment_method := "mock" } ∧
      db' = { db with payments := db.payments ++ [pay],
                      orders := setStatusFirst oid "paid" db.orders } := by
  cases hfo : findOrder uid oid db.orders with
  | none => simp [process_payment, hfo] at hok
  | some ord =>
      simp only [process_payment, hfo, Except.ok.injEq, Prod.mk.injEq] at hok
      obtain ⟨hdb, hpay⟩ := hok
      exact ⟨ord, rfl, hpay.symm, by rw [← hdb, ← hpay]⟩

/-! ### Order-item materialization lemmas -/

theorem mkOrderItems_eq_filterMap (products : List Product) (l : List CartItem) :
    mkOrderItems products l = l.filterMap (fun it =>
      match findProduct it.product_id products with
      | some p => some { product_id := it.product_id, product_name := p.name,
                         quantity := it.quantity, price := it.price }
      | none => none) := by
  induction l with
  | nil => rfl
  | cons it rest ih =>
      cases hfp : findProduct it.product_id products with
      | some p => simp [mkOrderItems, hfp, List.filterMap_cons, ih]
      | none => simp [mkOrderItems, hfp, List.filterMap_cons, ih]

theorem mkOrderItems_eq_nil_of_absent {products : List Product} {l : List CartItem}
    (h : ∀ it ∈ l, findProduct it.product_id products = none) :
    mkOrderItems products l = [] := by
  induction l with
  | nil => rfl
  | cons it rest ih =>
      rw [mkOrderItems, h it (List.mem_cons_self _ _)]
      exact ih (fun x hx => h x (List.mem_cons_of_mem _ hx))

/-! ### Add-merge lemmas -/

theorem addQtyFirst_mem {pid : String} {q : Int} {it : CartItem} {l : List CartItem}
    (hnd : (l.map CartItem.product_id).Nodup) (hmem : it ∈ l)
    (hpid : it.product_id = pid) :
    ({ product_id := pid, quantity := it.quantity + q, price := it.price } : CartItem) ∈
      addQtyFirst pid q l := by
  induction l with
  | nil => cases hmem
  | cons x rest ih =>
      rw [List.map_cons, List.nodup_cons] at hnd
      by_cases hx : x.product_id = pid
      · have hit : it = x := by
          rcases List.mem_cons.mp hmem with rfl | hmem'
          · rfl
          · exact absurd (hpid ▸ List.mem_map_of_mem CartItem.product_id hmem')
              (hx ▸ hnd.1)
        subst hit
        rw [addQtyFirst, if_pos hx]
        obtain ⟨a, b, c⟩ := it
        have ha : a = pid := hx
        subst ha
        exact List.mem_cons_self _ _
      · rw [addQtyFirst, if_neg hx]
        rcases List.mem_cons.mp hmem with rfl | hmem'
        · exact absurd hpid hx
        · exact List.mem_cons_of_mem _ (ih hnd.2 hmem')

theorem countP_productId (pid : String) (l : List CartItem) :
    l.countP (fun x => x.product_id == pid) = (l.map CartItem.product_id).count pid := by
  induction l with
  | nil => rfl
  | cons it rest ih =>
      by_cases h : it.product_id = pid
      · simp [List.countP_cons, List.map_cons, List.count_cons, h, ih]
      · simp [List.countP_cons, List.map_cons, List.count_cons, h, ih]

/-! ### Status-update lemmas -/

theorem findOrder_setStatusFirst {uid oid : String} (st : String) {l : List Order} {o : Order}
    (h : findOrder uid oid l = some o) :
    findOrder uid oid (setStatusFirst oid st l) = some o ∨
    findOrder uid oid (setStatusFirst oid st l) = some { o with status := st } := by
  induction l with
  | nil => simp [findOrder] at h
  | cons x rest ih =>
      by_cases hx : x.id = oid ∧ x.user_id = uid
      · rw [findOrder, if_pos hx] at h
        cases h
        rw [setStatusFirst, if_pos hx.1, findOrder, if_pos hx]
        exact Or.inr rfl
      · rw [findOrder, if_neg hx] at h
        by_cases hxid : x.id = oid
        · rw [setStatusFirst, if_pos hxid, findOrder, if_neg hx]
          exact Or.inl h
        · rw [setStatusFirst, if_neg hxid, findOrder, if_neg hx]
          exact ih h

theorem setStatusFirst_getD {oid st : String} {l : List Order} {i : Nat} (d : Order)
    (h : i < l.length) :
    (setStatusFirst oid st l).getD i d = l.getD i d ∨
    (setStatusFirst oid st l).getD i d = { l.getD i d with status := st } := by
  induction l generalizing i with
  | nil => simp at h
  | cons o rest ih =>
      by_cases ho : o.id = oid
      · rw [setStatusFirst, if_pos ho]
        cases i with
        | zero => exact Or.inr rfl
        | succ n => exact Or.inl rfl
      · rw [setStatusFirst, if_neg ho]
        cases i with
        | zero => exact Or.inl rfl
        | succ n =>
            rw [List.getD_cons_succ, List.getD_cons_succ]
            exact ih (Nat.lt_of_succ_lt_succ h)

/-- The orders collection, across any single request, is either
untouched, extended by one new order at the end, or has one order's
status set to "paid". -/
theorem applyOp_orders (db : DB) (op : Op) :
    (applyOp db op).orders = db.orders ∨
    (∃ ord, (applyOp db op).orders = db.orders ++ [ord]) ∨
    (∃ oid, (applyOp db op).orders = setStatusFirst oid "paid" db.orders) := by
  cases op with
  | getCart uid now =>
      left
      cases hfc : findCart uid db.carts <;> simp [applyOp, get_cart, hfc]
  | addToCart uid pid qty now =>
      left
      cases hres : add_to_cart db uid { product_id := pid, quantity := qty } now with
      | error e => simp [applyOp, hres]
      | ok r =>
          obtain ⟨db', msg⟩ := r
          simp only [applyOp, hres]
          obtain ⟨c', -, rfl⟩ := add_to_cart_ok_shape hres
          rfl
  | removeFromCart uid pid now =>
      left
      cases hres : remove_from_cart db uid pid now with
      | error e => simp [applyOp, hres]
      | ok r =>
          obtain ⟨db', msg⟩ := r
          simp only [applyOp, hres]
          obtain ⟨c', -, rfl⟩ := remove_from_cart_ok_shape hres
          rfl
  | createOrder uid addr oid =>
      cases hres : create_order db uid addr oid with
      | error e => left; simp [applyOp, hres]
      | ok r =>
          obtain ⟨db', ord⟩ := r
          right; left
          refine ⟨ord, ?_⟩
          simp only [applyOp, hres]
          obtain ⟨cart, -, -, -, rfl⟩ := create_order_ok_shape hres
          rfl
  | processPayment uid oid payid =>
      cases hres : process_payment db uid oid payid with
      | error e => left; simp [applyOp, hres]
      | ok r =>
          obtain ⟨db', pay⟩ := r
          right; right
          refine ⟨oid, ?_⟩
          simp only [applyOp, hres]
          obtain ⟨ord, -, -, rfl⟩ := process_payment_ok_shape hres
          rfl
  | createProduct p => left; rfl
  | initProducts freshId =>
      left
      show (init_products db freshId).1.orders = db.orders
      unfold init_products
      split
      · rfl
      · rfl

/-! ### Claim theorems -/

/-- Claim C1: along every sequence of operations from the empty store
(in particular every sequence of add/remove operations on a user's
cart), every stored cart's total equals the sum over its line items of
price times quantity after every operation; and a freshly created cart
has no items and total 0. -/
theorem C1_cart_total_invariant :
    (∀ ops : List Op, ∀ c ∈ (runOps initDB ops).carts, c.total = cartTotal c.items) ∧
    (∀ (db : DB) (uid : String) (now : Nat), findCart uid db.carts = none →
      (get_cart db uid now).2.items = [] ∧ (get_cart db uid now).2.total = 0) := by
  constructor
  · intro ops c hc
    exact ((inv_reachable ops).1 c hc).1
  · intro db uid now hnone
    simp [get_cart, hnone]

/-- Witness for C1: a concrete two-request run whose stored cart
satisfies the total invariant, and a fresh cart on the empty store. -/
theorem C1_witness :
    (({ user_id := "u1", items := [⟨"p1", 2, 10⟩], total := 20, updated_at := 1 } : Cart).total
        = cartTotal ({ user_id := "u1", items := [⟨"p1", 2, 10⟩], total := 20, updated_at := 1 } : Cart).items) ∧
    ((get_cart initDB "u1" 3).2.items = [] ∧ (get_cart initDB "u1" 3).2.total = 0) :=
  ⟨C1_cart_total_invariant.1
      [Op.createProduct ⟨"p1", "n", "d", 10, "i", "c", 5⟩, Op.addToCart "u1" "p1" 2 1]
      { user_id := "u1", items := [⟨"p1", 2, 10⟩], total := 20, updated_at := 1 }
      (by with_unfolding_all decide),
   C1_cart_total_invariant.2 initDB "u1" 3 (by decide)⟩

/-- Claim C4: checkout against a missing cart, or a cart whose item
list is empty, fails with status 400 ("Cart is empty", the
InvalidState case) and leaves the whole store unchanged. -/
theorem C4_checkout_empty_fails :
    ∀ (db : DB) (uid addr oid : String),
      (findCart uid db.carts = none ∨
        ∃ c, findCart uid db.carts = some c ∧ c.items = []) →
      create_order db uid addr oid = .error { status := 400, detail := "Cart is empty" } ∧
      applyOp db (Op.createOrder uid addr oid) = db := by
  intro db uid addr oid h
  have herr : create_order db uid addr oid =
      .error { status := 400, detail := "Cart is empty" } := by
    rcases h with hnone | ⟨c, hc, hemp⟩
    · simp [create_order, hnone]
    · simp [create_order, hc, hemp]
  refine ⟨herr, ?_⟩
  simp only [applyOp, herr]

/-- Witness for C4: checkout with no cart at all, on the empty store. -/
theorem C4_witness :
    create_order initDB "u1" "addr" "o1" =
      .error { status := 400, detail := "Cart is empty" } ∧
    applyOp initDB (Op.createOrder "u1" "addr" "o1") = initDB :=
  C4_checkout_empty_fails initDB "u1" "addr" "o1" (Or.inl (by decide))

/-- Counterexample to claim C6: the code never validates the quantity.
With product "p1" in the catalog, adding it with quantity 0 is not
rejected: the request succeeds and stores a cart containing a line
item of quantity 0, so the cart does not stay unchanged. -/
theorem C6_counterexample :
    add_to_cart
        { products := [⟨"p1", "n", "d", 10, "i", "c", 5⟩], carts := [], orders := [],
          payments := [] } "u1" { product_id := "p1", quantity := 0 } 0 =
      .ok ({ products := [⟨"p1", "n", "d", 10, "i", "c", 5⟩],
             carts := [{ user_id := "u1", items := [⟨"p1", 0, 10⟩], total := 0,
                         updated_at := 0 }],
             orders := [], payments := [] }, "Item added to cart") := by
  with_unfolding_all decide

/-- Claim C6, amended: addItem requires only that productId resolve to
an existing product — otherwise it fails with 404 NotFound and leaves
the store unchanged.  The quantity is NOT validated: any integer
quantity, including 0 and negative values, is accepted whenever the
product exists. -/
theorem C6_add_validation :
    (∀ (db : DB) (uid : String) (req : AddToCartRequest) (now : Nat),
      findProduct req.product_id db.products = none →
      add_to_cart db uid req now =
        .error { status := 404, detail := "Product not found" } ∧
      applyOp db (Op.addToCart uid req.product_id req.quantity now) = db) ∧
    (∀ (db : DB) (uid : String) (req : AddToCartRequest) (now : Nat) (p : Product),
      findProduct req.product_id db.products = some p →
      (add_to_cart db uid req now).isOk = true) := by
  constructor
  · intro db uid req now hnone
    have herr : add_to_cart db uid req now =
        .error { status := 404, detail := "Product not found" } := by
      simp [add_to_cart, hnone]
    refine ⟨herr, ?_⟩
    simp only [applyOp, herr]
  · intro db uid req now p hp
    simp only [add_to_cart, hp]
    cases findCart uid db.carts <;> rfl

/-- Witness for the amended C6: a missing product is rejected with
404; an existing product is accepted even with quantity -3. -/
theorem C6_witness :
    (add_to_cart initDB "u1" { product_id := "nope", quantity := 1 } 0 =
        .error { status := 404, detail := "Product not found" } ∧
      applyOp initDB (Op.addToCart "u1" "nope" 1 0) = initDB) ∧
    (add_to_cart
        { products := [⟨"p1", "n", "d", 10, "i", "c", 5⟩], carts := [], orders := [],
          payments := [] } "u1" { product_id := "p1", quantity := -3 } 0).isOk = true :=
  ⟨C6_add_validation.1 initDB "u1" { product_id := "nope", quantity := 1 } 0 (by decide),
   C6_add_validation.2 _ "u1" { product_id := "p1", quantity := -3 } 0
     ⟨"p1", "n", "d", 10, "i", "c", 5⟩ (by decide)⟩

/-- Claim C2: no reachable cart ever holds two line items with the
same product id; and adding a product that is already a line item
merges into that line item — its quantity grows by the requested
amount, exactly one line item for the product remains, and the price
snapshot stays the one captured at the first add (it is not refreshed
from the catalog). -/
theorem C2_add_merge :
    (∀ ops : List Op, ∀ c ∈ (runOps initDB ops).carts,
      (c.items.map CartItem.product_id).Nodup) ∧
    (∀ (db : DB) (uid pid : String) (q : Int) (now : Nat) (c : Cart) (it : CartItem)
        (p : Product),
      findCart uid db.carts = some c →
      (c.items.map CartItem.product_id).Nodup →
      it ∈ c.items → it.product_id = pid →
      findProduct pid db.products = some p →
      ∃ db' msg c',
        add_to_cart db uid { product_id := pid, quantity := q } now = .ok (db', msg) ∧
        findCart uid db'.carts = some c' ∧
        ({ product_id := pid, quantity := it.quantity + q, price := it.price } : CartItem)
          ∈ c'.items ∧
        c'.items.countP (fun x => x.product_id == pid) = 1 ∧
        c'.items.map CartItem.product_id = c.items.map CartItem.product_id) := by
  constructor
  · intro ops c hc
    exact ((inv_reachable ops).1 c hc).2
  · intro db uid pid q now c it p hfc hnd hmem hpid hfp
    obtain ⟨it0, hit0⟩ := Option.isSome_iff_exists.mp (findItem_isSome_of_mem hmem hpid)
    have heq : add_to_cart db uid { product_id := pid, quantity := q } now = .ok
        ({ db with
            carts := replaceCartUpsert uid
              { c with
                items := addQtyFirst pid q c.items,
                total := cartTotal (addQtyFirst pid q c.items),
                updated_at := now }
              db.carts },
          "Item added to cart") := by
      simp only [add_to_cart, hfp, hfc, hit0]
    refine ⟨_, _, _, heq, findCart_replaceCartUpsert (findCart_some hfc).2,
      addQtyFirst_mem hnd hmem hpid, ?_, map_productId_addQtyFirst pid q c.items⟩
    show (addQtyFirst pid q c.items).countP (fun x => x.product_id == pid) = 1
    rw [countP_productId, map_productId_addQtyFirst]
    exact List.count_eq_one_of_mem hnd (hpid ▸ List.mem_map_of_mem CartItem.product_id hmem)

/-- Witness for C2: a reachable cart (nodup ids) plus a concrete merge
of product "p1" at quantity 2 then 3 — one line item, quantity 5, and
the snapshot price 10 even though the catalog now prices "p1" at 99. -/
theorem C2_witness :
    ((({ user_id := "u1", items := [⟨"p1", 2, 10⟩], total := 20, updated_at := 1 } : Cart).items.map
        CartItem.product_id).Nodup) ∧
    (∃ db' msg c',
      add_to_cart
          { products := [⟨"p1", "n", "d", 99, "i", "c", 5⟩],
            carts := [{ user_id := "u1", items := [⟨"p1", 2, 10⟩], total := 20, updated_at := 1 }],
            orders := [], payments := [] }
          "u1" { product_id := "p1", quantity := 3 } 2 = .ok (db', msg) ∧
      findCart "u1" db'.carts = some c' ∧
      ({ product_id := "p1", quantity := (2 : Int) + 3, price := 10 } : CartItem) ∈ c'.items ∧
      c'.items.countP (fun x => x.product_id == "p1") = 1 ∧
      c'.items.map CartItem.product_id =
        ({ user_id := "u1", items := [⟨"p1", 2, 10⟩], total := 20, updated_at := 1 } : Cart).items.map
          CartItem.product_id) :=
  ⟨C2_add_merge.1 [Op.createProduct ⟨"p1", "n", "d", 10, "i", "c", 5⟩,
      Op.addToCart "u1" "p1" 2 1]
      { user_id := "u1", items := [⟨"p1", 2, 10⟩], total := 20, updated_at := 1 }
      (by with_unfolding_all decide),
   C2_add_merge.2
      { products := [⟨"p1", "n", "d", 99, "i", "c", 5⟩],
        carts := [{ user_id := "u1", items := [⟨"p1", 2, 10⟩], total := 20, updated_at := 1 }],
        orders := [], payments := [] }
      "u1" "p1" 3 2 { user_id := "u1", items := [⟨"p1", 2, 10⟩], total := 20, updated_at := 1 }
      ⟨"p1", 2, 10⟩ ⟨"p1", "n", "d", 99, "i", "c", 5⟩
      (by decide) (by decide) (by decide) (by decide) (by decide)⟩

/-- Claim C3: whenever checkout succeeds on a reachable store, the
user's cart is deleted, so a subsequent GET /cart returns a freshly
created empty cart with total 0. -/
theorem C3_checkout_clears_cart :
    ∀ (ops : List Op) (uid addr oid : String) (db' : DB) (ord : Order) (now : Nat),
      create_order (runOps initDB ops) uid addr oid = .ok (db', ord) →
      (get_cart db' uid now).2.items = [] ∧ (get_cart db' uid now).2.total = 0 := by
  intro ops uid addr oid db' ord now hok
  obtain ⟨cart, hfc, hne, hord, hdb⟩ := create_order_ok_shape hok
  subst hdb
  have hnone : findCart uid (deleteCartFirst uid (runOps initDB ops).carts) = none :=
    findCart_deleteCartFirst_of_nodup (inv_reachable ops).2.1
  simp [get_cart, hnone]

/-- Witness for C3: seed a product, add it, check out, and observe the
next GET /cart yields an empty cart with total 0. -/
theorem C3_witness :
    (get_cart
        { products := [⟨"p1", "n", "d", 10, "i", "c", 5⟩], carts := [],
          orders := [{ id := "o1", user_id := "u1", items := [⟨"p1", "n", 1, 10⟩],
                       total := 10, status := "pending", shipping_address := "addr" }],
          payments := [] } "u1" 7).2.items = [] ∧
    (get_cart
        { products := [⟨"p1", "n", "d", 10, "i", "c", 5⟩], carts := [],
          orders := [{ id := "o1", user_id := "u1", items := [⟨"p1", "n", 1, 10⟩],
                       total := 10, status := "pending", shipping_address := "addr" }],
          payments := [] } "u1" 7).2.total = 0 :=
  C3_checkout_clears_cart
    [Op.createProduct ⟨"p1", "n", "d", 10, "i", "c", 5⟩, Op.addToCart "u1" "p1" 1 0]
    "u1" "addr" "o1"
    { products := [⟨"p1", "n", "d", 10, "i", "c", 5⟩], carts := [],
      orders := [{ id := "o1", user_id := "u1", items := [⟨"p1", "n", 1, 10⟩],
                   total := 10, status := "pending", shipping_address := "addr" }],
      payments := [] }
    { id := "o1", user_id := "u1", items := [⟨"p1", "n", 1, 10⟩], total := 10,
      status := "pending", shipping_address := "addr" } 7
    (by with_unfolding_all decide)

/-- Claim C5: a successful checkout copies the order total verbatim
from the cart's stored total, and materializes the order items by
dropping every cart item whose product no longer exists while copying
the others with the cart's quantity and price snapshot (plus the
product's current name). -/
theorem C5_order_total_copied :
    ∀ (db db' : DB) (uid addr oid : String) (ord : Order),
      create_order db uid addr oid = .ok (db', ord) →
      ∃ c, findCart uid db.carts = some c ∧
        ord.total = c.total ∧
        ord.items = c.items.filterMap (fun it =>
          match findProduct it.product_id db.products with
          | some p => some { product_id := it.product_id, product_name := p.name,
                             quantity := it.quantity, price := it.price }
          | none => none) := by
  intro db db' uid addr oid ord hok
  obtain ⟨cart, hfc, hne, hord, hdb⟩ := create_order_ok_shape hok
  subst hord
  exact ⟨cart, hfc, rfl, mkOrderItems_eq_filterMap db.products cart.items⟩

/-- Witness for C5: a cart holding products "p1" (still in the
catalog) and "p2" (deleted); the order keeps only "p1" yet its total
is the cart's stored 24. -/
theorem C5_witness :
    ∃ c, findCart "u1"
        ({ products := [⟨"p1", "n", "d", 10, "i", "c", 5⟩],
           carts := [{ user_id := "u1", items := [⟨"p1", 1, 10⟩, ⟨"p2", 2, 7⟩],
                       total := 24, updated_at := 0 }],
           orders := [], payments := [] } : DB).carts = some c ∧
      ({ id := "o1", user_id := "u1", items := [⟨"p1", "n", 1, 10⟩], total := 24,
         status := "pending", shipping_address := "a" } : Order).total = c.total ∧
      ({ id := "o1", user_id := "u1", items := [⟨"p1", "n", 1, 10⟩], total := 24,
         status := "pending", shipping_address := "a" } : Order).items =
        c.items.filterMap (fun it =>
          match findProduct it.product_id
              ({ products := [⟨"p1", "n", "d", 10, "i", "c", 5⟩],
                 carts := [{ user_id := "u1", items := [⟨"p1", 1, 10⟩, ⟨"p2", 2, 7⟩],
                             total := 24, updated_at := 0 }],
                 orders := [], payments := [] } : DB).products with
          | some p => some { product_id := it.product_id, product_name := p.name,
                             quantity := it.quantity, price := it.price }
          | none => none) :=
  C5_order_total_copied
    { products := [⟨"p1", "n", "d", 10, "i", "c", 5⟩],
      carts := [{ user_id := "u1", items := [⟨"p1", 1, 10⟩, ⟨"p2", 2, 7⟩],
                  total := 24, updated_at := 0 }],
      orders := [], payments := [] }
    { products := [⟨"p1", "n", "d", 10, "i", "c", 5⟩], carts := [],
      orders := [{ id := "o1", user_id := "u1", items := [⟨"p1", "n", 1, 10⟩], total := 24,
                   status := "pending", shipping_address := "a" }],
      payments := [] }
    "u1" "a" "o1"
    { id := "o1", user_id := "u1", items := [⟨"p1", "n", 1, 10⟩], total := 24,
      status := "pending", shipping_address := "a" }
    (by with_unfolding_all decide)

/-- Claim C7: on a reachable store, removing a product that is not in
the user's existing cart succeeds with no error and leaves the cart's
items and total unchanged; removing anything for a user with no cart
fails with 404 NotFound. -/
theorem C7_remove_noop :
    ∀ (ops : List Op) (uid pid : String) (now : Nat),
      (∀ c, findCart uid (runOps initDB ops).carts = some c →
        pid ∉ c.items.map CartItem.product_id →
        ∃ db' msg c',
          remove_from_cart (runOps initDB ops) uid pid now = .ok (db', msg) ∧
          findCart uid db'.carts = some c' ∧
          c'.items = c.items ∧ c'.total = c.total) ∧
      (findCart uid (runOps initDB ops).carts = none →
        remove_from_cart (runOps initDB ops) uid pid now =
          .error { status := 404, detail := "Cart not found" }) := by
  intro ops uid pid now
  constructor
  · intro c hfc habs
    have hc := findCart_some hfc
    have hok := (inv_reachable ops).1 c hc.1
    have habs' : ∀ it ∈ c.items, it.product_id ≠ pid := fun it hit heq =>
      habs (heq ▸ List.mem_map_of_mem _ hit)
    have hitems : removeItemsWith pid c.items = c.items := removeItemsWith_of_absent habs'
    have heq : remove_from_cart (runOps initDB ops) uid pid now = .ok
        ({ runOps initDB ops with
            carts := replaceCartFirst uid
              { c with
                items := removeItemsWith pid c.items,
                total := cartTotal (removeItemsWith pid c.items),
                updated_at := now }
              (runOps initDB ops).carts },
          "Item removed from cart") := by
      simp only [remove_from_cart, hfc]
    refine ⟨_, _, _, heq, findCart_replaceCartFirst hc.2 hfc, hitems, ?_⟩
    show cartTotal (removeItemsWith pid c.items) = c.total
    rw [hitems]
    exact hok.1.symm
  · intro hnone
    simp [remove_from_cart, hnone]

/-- Witness for C7: removing the absent product "zz" from a reachable
one-item cart keeps items and total; removing for the cartless user
"u2" raises 404. -/
theorem C7_witness :
    (∃ db' msg c',
      remove_from_cart (runOps initDB [Op.createProduct ⟨"p1", "n", "d", 10, "i", "c", 5⟩,
          Op.addToCart "u1" "p1" 2 1]) "u1" "zz" 9 = .ok (db', msg) ∧
      findCart "u1" db'.carts = some c' ∧
      c'.items =
        ({ user_id := "u1", items := [⟨"p1", 2, 10⟩], total := 20, updated_at := 1 } : Cart).items ∧
      c'.total =
        ({ user_id := "u1", items := [⟨"p1", 2, 10⟩], total := 20, updated_at := 1 } : Cart).total) ∧
    remove_from_cart (runOps initDB [Op.createProduct ⟨"p1", "n", "d", 10, "i", "c", 5⟩,
        Op.addToCart "u1" "p1" 2 1]) "u2" "zz" 9 =
      .error { status := 404, detail := "Cart not found" } :=
  ⟨(C7_remove_noop [Op.createProduct ⟨"p1", "n", "d", 10, "i", "c", 5⟩,
      Op.addToCart "u1" "p1" 2 1] "u1" "zz" 9).1
      { user_id := "u1", items := [⟨"p1", 2, 10⟩], total := 20, updated_at := 1 }
      (by with_unfolding_all decide) (by decide),
   (C7_remove_noop [Op.createProduct ⟨"p1", "n", "d", 10, "i", "c", 5⟩,
      Op.addToCart "u1" "p1" 2 1] "u2" "zz" 9).2 (by with_unfolding_all decide)⟩

/-- Counterexample to claim C8: processPayment has no already-paid
check.  In the reachable run below, order "o1" has already been paid
once (its status is "paid"), yet a second processPayment on it is not
prevented — it succeeds again. -/
theorem C8_counterexample :
    ((runOps initDB [Op.createProduct ⟨"p1", "n", "d", 10, "i", "c", 5⟩,
        Op.addToCart "u1" "p1" 1 0, Op.createOrder "u1" "a" "o1",
        Op.processPayment "u1" "o1" "y1"]).orders.map Order.status = ["paid"]) ∧
    ((process_payment (runOps initDB [Op.createProduct ⟨"p1", "n", "d", 10, "i", "c", 5⟩,
        Op.addToCart "u1" "p1" 1 0, Op.createOrder "u1" "a" "o1",
        Op.processPayment "u1" "o1" "y1"]) "u1" "o1" "y2").isOk = true) := by
  constructor
  · with_unfolding_all decide
  · with_unfolding_all decide

/-- Claim C8, amended: in every reachable store each order's status is
"pending" or "paid"; across any single further request an order keeps
its identity and its status is unchanged or flips from "pending" to
"paid" (so it never leaves that set and never returns from "paid" to
"pending", and only processPayment performs the flip); but the payment
endpoint does NOT refuse an already-paid order: processPayment on a
paid order succeeds again and leaves it paid. -/
theorem C8_status_machine :
    (∀ ops : List Op, ∀ o ∈ (runOps initDB ops).orders,
      o.status = "pending" ∨ o.status = "paid") ∧
    (∀ (ops : List Op) (op : Op) (i : Nat) (d : Order),
      i < (runOps initDB ops).orders.length →
      statusStep ((runOps initDB ops).orders.getD i d)
        ((applyOp (runOps initDB ops) op).orders.getD i d)) ∧
    (∀ (db : DB) (uid oid payid : String) (o : Order),
      findOrder uid oid db.orders = some o → o.status = "paid" →
      ∃ db' pay, process_payment db uid oid payid = .ok (db', pay) ∧
        ∃ o', findOrder uid oid db'.orders = some o' ∧ o'.status = "paid") := by
  refine ⟨?_, ?_, ?_⟩
  · intro ops o ho
    exact (inv_reachable ops).2.2 o ho
  · intro ops op i d hi
    rcases applyOp_orders (runOps initDB ops) op with heq | ⟨ord, heq⟩ | ⟨oid, heq⟩
    · rw [heq]
      exact ⟨rfl, Or.inl rfl⟩
    · rw [heq, List.getD_append _ _ _ _ hi]
      exact ⟨rfl, Or.inl rfl⟩
    · rw [heq]
      rcases setStatusFirst_getD d hi with h' | h'
      · rw [h']
        exact ⟨rfl, Or.inl rfl⟩
      · rw [h']
        have hmem : (runOps initDB ops).orders.getD i d ∈ (runOps initDB ops).orders := by
          rw [List.getD_eq_getElem _ _ hi]
          exact List.getElem_mem _
        rcases (inv_reachable ops).2.2 _ hmem with hp | hp
        · exact ⟨rfl, Or.inr ⟨hp, rfl⟩⟩
        · exact ⟨rfl, Or.inl hp.symm⟩
  · intro db uid oid payid o hfo hpaid
    have heq : process_payment db uid oid payid = .ok
        ({ db with
            payments := db.payments ++
              [{ id := payid, order_id := oid, amount := o.total,
                 status := "completed", payment_method := "mock" }],
            orders := setStatusFirst oid "paid" db.orders },
          { id := payid, order_id := oid, amount := o.total, status := "completed",
            payment_method := "mock" }) := by
      simp only [process_payment, hfo]
    refine ⟨_, _, heq, ?_⟩
    rcases findOrder_setStatusFirst "paid" hfo with h' | h'
    · exact ⟨o, h', hpaid⟩
    · exact ⟨{ o with status := "paid" }, h', rfl⟩

/-- Witness for the amended C8: a concrete checkout-then-payment run,
one concrete step of the status relation, and one concrete repeat
payment on an already-paid order. -/
theorem C8_witness :
    (({ id := "o1", user_id := "u1", items := [⟨"p1", "n", 1, 10⟩], total := 10,
        status := "pending", shipping_address := "a" } : Order).status = "pending" ∨
      ({ id := "o1", user_id := "u1", items := [⟨"p1", "n", 1, 10⟩], total := 10,
         status := "pending", shipping_address := "a" } : Order).status = "paid") ∧
    statusStep
      ((runOps initDB [Op.createProduct ⟨"p1", "n", "d", 10, "i", "c", 5⟩,
          Op.addToCart "u1" "p1" 1 0, Op.createOrder "u1" "a" "o1"]).orders.getD 0
        { id := "z", user_id := "z", items := [], total := 0, status := "pending",
          shipping_address := "z" })
      ((applyOp (runOps initDB [Op.createProduct ⟨"p1", "n", "d", 10, "i", "c", 5⟩,
            Op.addToCart "u1" "p1" 1 0, Op.createOrder "u1" "a" "o1"])
          (Op.processPayment "u1" "o1" "y1")).orders.getD 0
        { id := "z", user_id := "z", items := [], total := 0, status := "pending",
          shipping_address := "z" }) ∧
    (∃ db' pay, process_payment
        { products := [], carts := [],
          orders := [{ id := "o1", user_id := "u1", items := [], total := 10,
                       status := "paid", shipping_address := "a" }],
          payments := [] } "u1" "o1" "y9" = .ok (db', pay) ∧
      ∃ o', findOrder "u1" "o1" db'.orders = some o' ∧ o'.status = "paid") :=
  ⟨C8_status_machine.1 [Op.createProduct ⟨"p1", "n", "d", 10, "i", "c", 5⟩,
      Op.addToCart "u1" "p1" 1 0, Op.createOrder "u1" "a" "o1"]
      { id := "o1", user_id := "u1", items := [⟨"p1", "n", 1, 10⟩], total := 10,
        status := "pending", shipping_address := "a" }
      (by with_unfolding_all decide),
   C8_status_machine.2.1 [Op.createProduct ⟨"p1", "n", "d", 10, "i", "c", 5⟩,
      Op.addToCart "u1" "p1" 1 0, Op.createOrder "u1" "a" "o1"]
      (Op.processPayment "u1" "o1" "y1") 0
      { id := "z", user_id := "z", items := [], total := 0, status := "pending",
        shipping_address := "z" }
      (by with_unfolding_all decide),
   C8_status_machine.2.2
      { products := [], carts := [],
        orders := [{ id := "o1", user_id := "u1", items := [], total := 10,
                     status := "paid", shipping_address := "a" }],
        payments := [] } "u1" "o1" "y9"
      { id := "o1", user_id := "u1", items := [], total := 10, status := "paid",
        shipping_address := "a" }
      (by decide) (by decide)⟩

/-- Claim C9: the catalog seed is idempotent — on any store whose
catalog is non-empty the seed call returns the distinct
already-initialized message and changes nothing, so a second seed call
right after a first one never inserts (and never duplicates)
products. -/
theorem C9_seed_idempotent :
    (∀ (db : DB) (f : Nat → String), db.products ≠ [] →
      init_products db f = (db, "Products already initialized")) ∧
    (∀ (db : DB) (f g : Nat → String),
      init_products (init_products db f).1 g =
        ((init_products db f).1, "Products already initialized")) := by
  have h1 : ∀ (db : DB) (f : Nat → String), db.products ≠ [] →
      init_products db f = (db, "Products already initialized") := by
    intro db f h
    have hc : 0 < db.products.length := List.length_pos.mpr h
    simp only [init_products, if_pos hc]
  refine ⟨h1, ?_⟩
  intro db f g
  by_cases h : db.products = []
  · have hlen : ¬ 0 < db.products.length := by simp [h]
    have hne : (init_products db f).1.products ≠ [] := by
      simp only [init_products, if_neg hlen]
      simp [h, sampleProducts]
    exact h1 _ g hne
  · rw [h1 db f h]
    exact h1 db g h

/-- Witness for C9: seeding a one-product store is a no-op with the
already-initialized message, and the second of two seed calls on the
empty store changes nothing. -/
theorem C9_witness :
    (init_products
        { products := [⟨"p1", "n", "d", 10, "i", "c", 5⟩], carts := [], orders := [],
          payments := [] } toString =
      ({ products := [⟨"p1", "n", "d", 10, "i", "c", 5⟩], carts := [], orders := [],
         payments := [] }, "Products already initialized")) ∧
    (init_products (init_products initDB toString).1 toString =
      ((init_products initDB toString).1, "Products already initialized")) :=
  ⟨C9_seed_idempotent.1
      { products := [⟨"p1", "n", "d", 10, "i", "c", 5⟩], carts := [], orders := [],
        payments := [] } toString (by decide),
   C9_seed_idempotent.2 initDB toString toString⟩

/-- Claim C10: when every line item of a non-empty cart references a
product that is gone from the catalog, checkout still succeeds: it
persists an order with an empty item list but the cart's (possibly
nonzero) total, and deletes the cart. -/
theorem C10_checkout_orphan_items :
    ∀ (db : DB) (uid addr oid : String) (c : Cart),
      findCart uid db.carts = some c → c.items ≠ [] →
      (∀ it ∈ c.items, findProduct it.product_id db.products = none) →
      ∃ db' ord, create_order db uid addr oid = .ok (db', ord) ∧
        ord.items = [] ∧ ord.total = c.total ∧
        db'.orders = db.orders ++ [ord] ∧
        db'.carts = deleteCartFirst uid db.carts := by
  intro db uid addr oid c hfc hne habs
  have hitems : mkOrderItems db.products c.items = [] := mkOrderItems_eq_nil_of_absent habs
  have heq : create_order db uid addr oid = .ok
      ({ db with
          orders := db.orders ++
            [{ id := oid, user_id := uid, items := mkOrderItems db.products c.items,
               total := c.total, status := "pending", shipping_address := addr }],
          carts := deleteCartFirst uid db.carts },
        { id := oid, user_id := uid, items := mkOrderItems db.products c.items,
          total := c.total, status := "pending", shipping_address := addr }) := by
    simp only [create_order, hfc, if_neg hne]
  exact ⟨_, _, heq, hitems, rfl, rfl, rfl⟩

/-- Witness for C10: a cart with one item of the vanished product "p1"
and stored total 20 checks out into an order with no items and total
20, and the cart is gone. -/
theorem C10_witness :
    ∃ db' ord,
      create_order
          { products := [],
            carts := [{ user_id := "u1", items := [⟨"p1", 2, 10⟩], total := 20,
                        updated_at := 0 }],
            orders := [], payments := [] } "u1" "a" "o1" = .ok (db', ord) ∧
      ord.items = [] ∧
      ord.total =
        ({ user_id := "u1", items := [⟨"p1", 2, 10⟩], total := 20, updated_at := 0 } : Cart).total ∧
      db'.orders =
        ({ products := [],
           carts := [{ user_id := "u1", items := [⟨"p1", 2, 10⟩], total := 20,
                       updated_at := 0 }],
           orders := [], payments := [] } : DB).orders ++ [ord] ∧
      db'.carts = deleteCartFirst "u1"
        ({ products := [],
           carts := [{ user_id := "u1", items := [⟨"p1", 2, 10⟩], total := 20,
                       updated_at := 0 }],
           orders := [], payments := [] } : DB).carts :=
  C10_checkout_orphan_items
    { products := [],
      carts := [{ user_id := "u1", items := [⟨"p1", 2, 10⟩], total := 20, updated_at := 0 }],
      orders := [], payments := [] } "u1" "a" "o1"
    { user_id := "u1", items := [⟨"p1", 2, 10⟩], total := 20, updated_at := 0 }
    (by decide) (by decide) (by decide)

end MicroMart
